import Mathlib

/-!
# Verification of the xtractor scraping core

A shallow embedding, in Lean 4, of the pure logic of the `xtractor`
repository (an X/Twitter scraping library), together with theorems settling
the specification claims about it.

Embedding conventions:
* Python strings are Lean `String`s; the handful of Python string methods the
  source uses (`strip`, `split`, `replace`, `splitlines`, indexing) are
  modelled below with Python semantics (ASCII whitespace; `replace` replaces
  every occurrence; `split(sep)` keeps empty fragments, no-argument `split`
  drops them).
* Python `float` is modelled exactly, as a rational number together with the
  special values `inf`, `-inf` and `nan` (`PyFloat`).  IEEE-754 rounding is
  not modelled: finite values stay exact rationals, so a finite product never
  overflows to infinity in the model.  None of the proved statements depends
  on rounding.
* Fallible Python code is embedded in `Except PyError`; an uncaught Python
  exception is `Except.error`.
* Parsed HTML (BeautifulSoup documents) is a rose tree `Node`; a document
  (`Soup`) is the list of its top-level nodes.  Only the CSS-selector shapes
  actually occurring in `constants/css_selectors.py` are interpreted
  (`tag`, `tag[attr="v"]`, `tag[attr$="v"]`).
* BeautifulSoup truthiness of a `Tag` is "has at least one child"
  (`Tag.__len__`); truthiness of an optional string is "not None and not
  empty".
-/

namespace Xtractor

/-! ## Python exceptions -/

/-- The Python exception kinds that the embedded code can raise. -/
inductive PyError where
  | valueError
  | overflowError
  | attributeError
  | indexError
  | typeError
deriving DecidableEq, Repr

instance {ε α : Type} [DecidableEq ε] [DecidableEq α] : DecidableEq (Except ε α) := by
  intro a b
  cases a <;> cases b
  case ok.ok x y =>
    exact if h : x = y then .isTrue (by rw [h]) else .isFalse (by simp [h])
  case error.error x y =>
    exact if h : x = y then .isTrue (by rw [h]) else .isFalse (by simp [h])
  case ok.error x y => exact .isFalse (by simp)
  case error.ok x y => exact .isFalse (by simp)

/-! ## Python string primitives -/

/-- Python whitespace characters (the ASCII ones; the source never feeds
non-ASCII whitespace to `strip`/`split`). -/
def pyIsSpace (c : Char) : Bool :=
  c = ' ' || c = '\t' || c = '\n' || c = '\r' || c = '\x0b' || c = '\x0c'

/-- Python `str.strip()` (no argument): remove leading and trailing
whitespace. -/
def pyStrip (s : String) : String :=
  String.mk ((s.toList.dropWhile pyIsSpace).reverse.dropWhile pyIsSpace |>.reverse)

/-- Python `str.splitlines()` for the line breaks `\n`, `\r` and `\r\n`
(exotic Unicode line breaks are not modelled; the source only meets these). -/
def pySplitlinesAux : List Char → List Char → List String
  | [], acc => if acc.isEmpty then [] else [String.mk acc.reverse]
  | '\r' :: '\n' :: rest, acc => String.mk acc.reverse :: pySplitlinesAux rest []
  | '\r' :: rest, acc => String.mk acc.reverse :: pySplitlinesAux rest []
  | '\n' :: rest, acc => String.mk acc.reverse :: pySplitlinesAux rest []
  | c :: rest, acc => pySplitlinesAux rest (c :: acc)

/-- Python `str.splitlines()`. -/
def pySplitlines (s : String) : List String :=
  pySplitlinesAux s.toList []

/-- Python list indexing `l[i]` for a non-negative index: raises `IndexError`
when the index is out of range. -/
def pyIndex {α : Type} (l : List α) (i : Nat) : Except PyError α :=
  match l.get? i with
  | some a => .ok a
  | none => .error .indexError

/-- Python truthiness of an optional string (`None` and `""` are falsy). -/
def pyTruthyStr : Option String → Bool
  | none => false
  | some s => s ≠ ""

/-- Worker for the split functions: cut at every character satisfying the
predicate, accumulating the current fragment (reversed). -/
def pySplitPredAux (p : Char → Bool) : List Char → List Char → List String
  | [], acc => [String.mk acc.reverse]
  | c :: rest, acc =>
    if p c then String.mk acc.reverse :: pySplitPredAux p rest []
    else pySplitPredAux p rest (c :: acc)

/-- Python `str.split(sep)` for a one-character separator (the source only
splits on the one-character separators `"@"`, `"·"`, `"/"` and `" "`): split
at every occurrence, keeping empty fragments; the result is never empty. -/
def pySplitChar (s : String) (sep : Char) : List String :=
  pySplitPredAux (fun c => c = sep) s.toList []

/-- Python `str.split()` (no argument): split on whitespace runs, dropping
empty fragments. -/
def pySplitWs (s : String) : List String :=
  (pySplitPredAux pyIsSpace s.toList []).filter (fun t => t ≠ "")

/-- Python `c in s` for a one-character `c`. -/
def pyContainsChar (s : String) (c : Char) : Bool :=
  s.toList.contains c

/-- Worker for Python `str.replace`: scan for the (non-empty) pattern,
substituting every occurrence.  The fuel argument (initialized to the text's
length) only certifies termination. -/
def pyReplaceAux (pat rep : List Char) : ℕ → List Char → List Char
  | _, [] => []
  | 0, cs => cs
  | fuel + 1, c :: cs =>
    if pat ≠ [] ∧ pat.isPrefixOf (c :: cs) then
      rep ++ pyReplaceAux pat rep fuel ((c :: cs).drop pat.length)
    else c :: pyReplaceAux pat rep fuel cs

/-- Python `str.replace(pat, rep)` (every occurrence, left to right). -/
def pyReplace (s pat rep : String) : String :=
  String.mk (pyReplaceAux pat.toList rep.toList s.toList.length s.toList)

/-- Python `str.lower()` for the ASCII range the source feeds it. -/
def pyToLowerStr (s : String) : String :=
  String.mk (s.toList.map Char.toLower)

/-! ## Python `float` model

`PyFloat` is Python's `float` with exact finite values, carried as an
unnormalized fraction `num / den` whose denominator is always a positive
power of ten.  IEEE-754 rounding is not modelled; nothing proved below
depends on it. -/

/-- An exact (unnormalized) decimal fraction `num / den`. -/
structure PyRat where
  num : ℤ
  den : ℕ
deriving DecidableEq, Repr

inductive PyFloat where
  | finite (q : PyRat)
  | inf
  | ninf
  | nan
deriving DecidableEq, Repr

/-- Digit list to natural number. -/
def natOfDigits (cs : List Char) : ℕ :=
  cs.foldl (fun n c => 10 * n + (c.toNat - '0'.toNat)) 0

/-- Parse `[sign] digits` after the `e`/`E` exponent marker of a Python
float literal, scaling the mantissa accordingly. -/
def parsePyExponent (mant : PyRat) (r : List Char) : Option PyRat :=
  let (neg, ds) :=
    match r with
    | '+' :: d => (false, d)
    | '-' :: d => (true, d)
    | d => (false, d)
  if ds.isEmpty || ¬ ds.all Char.isDigit then none
  else
    let e := natOfDigits ds
    some (if neg then ⟨mant.num, mant.den * 10 ^ e⟩
      else ⟨mant.num * (10 : ℤ) ^ e, mant.den⟩)

/-- Parse the decimal part of a Python float literal:
`digits [. digits] [(e|E) [sign] digits]`, with at least one digit in the
mantissa.  (Underscore digit separators, which Python also accepts, are not
modelled; no input of interest contains them.) -/
def parsePyDecimal (cs : List Char) : Option PyRat :=
  let (intPart, rest) := cs.span Char.isDigit
  let (fracPart, rest2) :=
    match rest with
    | '.' :: r => let (f, r2) := r.span Char.isDigit; (f, r2)
    | _ => ([], rest)
  if intPart.isEmpty && fracPart.isEmpty then none
  else
    let mant : PyRat :=
      ⟨(natOfDigits intPart : ℤ) * (10 : ℤ) ^ fracPart.length +
        (natOfDigits fracPart : ℤ), 10 ^ fracPart.length⟩
    match rest2 with
    | [] => some mant
    | 'e' :: r3 => parsePyExponent mant r3
    | 'E' :: r3 => parsePyExponent mant r3
    | _ => none

/-- Model of the Python builtin `float(str)`: strip whitespace, optional
sign, then `inf`/`infinity`/`nan` (case-insensitive) or a decimal literal.
`none` models the `ValueError` raise. -/
def pyFloatOfString (s : String) : Option PyFloat :=
  let cs := (pyStrip s).toList
  let (neg, body) :=
    match cs with
    | '+' :: r => (false, r)
    | '-' :: r => (true, r)
    | r => (false, r)
  let low := String.mk (body.map Char.toLower)
  if low = "inf" ∨ low = "infinity" then
    some (if neg then .ninf else .inf)
  else if low = "nan" then
    some .nan
  else
    match parsePyDecimal body with
    | some q => some (.finite (if neg then ⟨-q.num, q.den⟩ else q))
    | none => none

/-- Multiplication of a Python float by a positive integer constant
(`* 1e3`, `* 1e6` in the source): infinities keep their sign, `nan` stays
`nan`.  (In the exact model a finite value never overflows to `inf`.) -/
def PyFloat.mulPos (f : PyFloat) (c : ℤ) : PyFloat :=
  match f with
  | .finite q => .finite ⟨q.num * c, q.den⟩
  | .inf => .inf
  | .ninf => .ninf
  | .nan => .nan

/-- Truncation toward zero, as Python `int(float)` does for finite values
(`Int.tdiv` is truncating division; the denominator is positive). -/
def ratTruncToInt (q : PyRat) : ℤ := Int.tdiv q.num (q.den : ℤ)

/-- Model of the Python builtin `int(float)`: truncates finite values toward
zero, raises `OverflowError` on infinities and `ValueError` on `nan`. -/
def pyIntOfFloat : PyFloat → Except PyError ℤ
  | .finite q => .ok (ratTruncToInt q)
  | .inf => .error .overflowError
  | .ninf => .error .overflowError
  | .nan => .error .valueError

/-- Model of the Python builtin `float(str)` as an `Except` computation
(`ValueError` on parse failure). -/
def pyFloatE (s : String) : Except PyError PyFloat :=
  match pyFloatOfString s with
  | some f => .ok f
  | none => .error .valueError

/-! ## `scraper/utils.py`: `convert_string_to_int` -/

/-- The body of the `try` block of `convert_string_to_int`
(`src/xtractor/scraper/utils.py` lines 10–15), applied to the
comma-stripped string. -/
def convertBody (s : String) : Except PyError ℤ :=
  if pyContainsChar s 'K' then do
    let f ← pyFloatE (pyReplace s "K" "")
    pyIntOfFloat (f.mulPos 1000)
  else if pyContainsChar s 'M' then do
    let f ← pyFloatE (pyReplace s "M" "")
    pyIntOfFloat (f.mulPos 1000000)
  else do
    let f ← pyFloatE s
    pyIntOfFloat f

/-- Model of `convert_string_to_int` (`src/xtractor/scraper/utils.py` lines 6–17):
strips commas, handles a `K`/`M` suffix, converts via `int(float(...))`,
and catches `ValueError` (only) to return `0`. -/
def convert_string_to_int (s : String) : Except PyError ℤ :=
  let s1 := pyReplace s "," ""
  match convertBody s1 with
  | .error .valueError => .ok 0
  | r => r

/-! ## Parsed HTML (BeautifulSoup) model -/

/-- A parsed HTML node: an element with a tag name, attributes and children,
or a bare text node. -/
inductive Node where
  | text (s : String)
  | elem (tag : String) (attrs : List (String × String)) (children : List Node)

mutual
/-- Decidable equality of nodes (the nested inductive prevents deriving). -/
def Node.decEq : (a b : Node) → Decidable (a = b)
  | .text s, .text t =>
    if h : s = t then .isTrue (by rw [h])
    else .isFalse (by intro hh; cases hh; exact h rfl)
  | .text _, .elem _ _ _ => .isFalse (by intro hh; cases hh)
  | .elem _ _ _, .text _ => .isFalse (by intro hh; cases hh)
  | .elem t1 a1 c1, .elem t2 a2 c2 =>
    match String.decEq t1 t2 with
    | .isFalse h => .isFalse (by intro hh; cases hh; exact h rfl)
    | .isTrue h1 =>
      match (inferInstance : DecidableEq (List (String × String))) a1 a2 with
      | .isFalse h => .isFalse (by intro hh; cases hh; exact h rfl)
      | .isTrue h2 =>
        match Node.decEqList c1 c2 with
        | .isFalse h => .isFalse (by intro hh; cases hh; exact h rfl)
        | .isTrue h3 => .isTrue (by rw [h1, h2, h3])

/-- Decidable equality of node lists. -/
def Node.decEqList : (a b : List Node) → Decidable (a = b)
  | [], [] => .isTrue rfl
  | [], _ :: _ => .isFalse (by intro hh; cases hh)
  | _ :: _, [] => .isFalse (by intro hh; cases hh)
  | x :: xs, y :: ys =>
    match Node.decEq x y with
    | .isFalse h => .isFalse (by intro hh; cases hh; exact h rfl)
    | .isTrue h1 =>
      match Node.decEqList xs ys with
      | .isFalse h => .isFalse (by intro hh; cases hh; exact h rfl)
      | .isTrue h2 => .isTrue (by rw [h1, h2])
end

instance : DecidableEq Node := Node.decEq

/-- A BeautifulSoup document: the list of its top-level nodes. -/
abbrev Soup := List Node

/-- The tag name of a node (`""` for a text node). -/
def Node.tagOf : Node → String
  | .text _ => ""
  | .elem t _ _ => t

/-- The children of a node. -/
def Node.childrenOf : Node → List Node
  | .text _ => []
  | .elem _ _ cs => cs

/-- Attribute lookup, `Tag.get(name)` in BeautifulSoup: `None` when the
attribute is absent.  (Multi-valued attributes such as `class` are not used
by the source for the attributes it reads, so values are plain strings.) -/
def Node.getAttr (n : Node) (name : String) : Option String :=
  match n with
  | .text _ => none
  | .elem _ attrs _ => (attrs.find? (fun p => p.1 = name)).map (·.2)

mutual
/-- All strings of the subtree of a node, in document order
(BeautifulSoup `Tag.get_text()` concatenates exactly these). -/
def Node.strings : Node → List String
  | .text s => [s]
  | .elem _ _ cs => Node.stringsOfList cs

/-- All strings under a list of sibling nodes, in document order. -/
def Node.stringsOfList : List Node → List String
  | [] => []
  | n :: ns => n.strings ++ Node.stringsOfList ns
end

/-- BeautifulSoup `Tag.get_text()` / `.text`: concatenation of every string
in the subtree, with no separators. -/
def Node.getText (n : Node) : String :=
  String.join n.strings

/-- BeautifulSoup truthiness of a `Tag`: `Tag.__len__` counts children, so a
childless element is falsy. -/
def Node.pyTruthy (n : Node) : Bool :=
  ¬ n.childrenOf.isEmpty

mutual
/-- All element nodes of a subtree in document (pre-) order, the element
itself included. -/
def Node.allElems : Node → List Node
  | .text _ => []
  | .elem t a cs => .elem t a cs :: Node.allElemsOfList cs

/-- All element nodes under a list of sibling nodes, in document order. -/
def Node.allElemsOfList : List Node → List Node
  | [] => []
  | n :: ns => n.allElems ++ Node.allElemsOfList ns
end

/-- All element nodes of a document in document order. -/
def Soup.allElems (soup : Soup) : List Node :=
  Node.allElemsOfList soup

/-- The attribute condition of a CSS selector, restricted to the two shapes
`constants/css_selectors.py` uses: exact match `[attr="v"]` and suffix match
`[attr$="v"]`. -/
inductive AttrCond where
  | any
  | eqVal (name v : String)
  | endsWithVal (name v : String)
deriving DecidableEq, Repr

/-- A CSS selector of the shape `tag` or `tag[attr...]`, the only shapes in
`constants/css_selectors.py`. -/
structure Selector where
  tag : String
  cond : AttrCond
deriving DecidableEq, Repr

/-- Whether an element node matches a selector. -/
def Node.matchesSel (n : Node) (sel : Selector) : Bool :=
  match n with
  | .text _ => false
  | .elem t _ _ =>
    t = sel.tag &&
      match sel.cond with
      | .any => true
      | .eqVal name v => n.getAttr name = some v
      | .endsWithVal name v =>
        match n.getAttr name with
        | some x => v.data.isSuffixOf x.data
        | none => false

/-- BeautifulSoup `soup.select(selector)`: every matching element in
document order. -/
def Soup.select (soup : Soup) (sel : Selector) : List Node :=
  soup.allElems.filter (fun n => n.matchesSel sel)

/-- BeautifulSoup `soup.select_one(selector)`: the first matching element in
document order, or `None`. -/
def Soup.selectOne (soup : Soup) (sel : Selector) : Option Node :=
  (soup.select sel).head?

/-- BeautifulSoup `soup.find_all([tags])`: every element of the document
whose tag is in the list, in document order. -/
def Soup.findAllTags (soup : Soup) (tags : List String) : List Node :=
  soup.allElems.filter (fun n => n.tagOf ∈ tags)

/-! ## Selector constants (`src/xtractor/constants/css_selectors.py`)

Each constant is the structured form of the CSS selector string named in its
doc comment. -/

/-- Model of `VIEWS_CSS_SELECTOR = 'a[href$="/analytics"]'` -/
def VIEWS_CSS_SELECTOR : Selector := ⟨"a", .endsWithVal "href" "/analytics"⟩

/-- Model of `METRICS_CSS_SELECTOR = 'div[data-testid="… "]'`, with the metric name
(lower-cased by the caller) injected for the placeholder. -/
def METRICS_CSS_SELECTOR (metric : String) : Selector :=
  ⟨"div", .eqVal "data-testid" metric⟩

/-- Model of `TEXT_CSS_SELECTOR = 'div[data-testid="tweetText"]'` -/
def TEXT_CSS_SELECTOR : Selector := ⟨"div", .eqVal "data-testid" "tweetText"⟩

/-- Model of `DATE_CSS_SELECTOR = "time"` -/
def DATE_CSS_SELECTOR : Selector := ⟨"time", .any⟩

/-- Model of `USERNAME_CSS_SELECTOR = 'div[data-testid="User-Name"]'` -/
def USERNAME_CSS_SELECTOR : Selector := ⟨"div", .eqVal "data-testid" "User-Name"⟩

/-- Model of `REPOST_CSS_SELECTOR = 'span[data-testid="socialContext"]'` -/
def REPOST_CSS_SELECTOR : Selector := ⟨"span", .eqVal "data-testid" "socialContext"⟩

/-- Model of `MEDIA_CSS_SELECTOR = 'img[alt="Image"]'` -/
def MEDIA_CSS_SELECTOR : Selector := ⟨"img", .eqVal "alt" "Image"⟩

/-- Model of `VIDEO_CSS_SELECTOR = 'div[data-testid="videoComponent"]'` -/
def VIDEO_CSS_SELECTOR : Selector := ⟨"div", .eqVal "data-testid" "videoComponent"⟩

/-- Model of `SHOW_MORE_CSS_SELECTOR = 'span[data-testid="tweet-text-show-more-link"]'` -/
def SHOW_MORE_CSS_SELECTOR : Selector :=
  ⟨"span", .eqVal "data-testid" "tweet-text-show-more-link"⟩

/-! ## `scraper/utils.py`: the two flattening helpers -/

/-- Model of `get_soup_element_text` (`src/xtractor/scraper/utils.py` lines 20–34):
iterate `soup.find_all(["span", "a", "div", "img"])`; for the text-bearing
tags append the stripped subtree text when the unstripped text is non-empty;
for `img` append the `alt` attribute when present and non-empty; join the
fragments with a single space. -/
def get_soup_element_text (soup : Soup) : String :=
  let post_content := (soup.findAllTags ["span", "a", "div", "img"]).filterMap
    (fun child =>
      if child.tagOf ∈ ["span", "a", "div"] then
        let t := child.getText
        if t ≠ "" then some (pyStrip t) else none
      else
        match child.getAttr "alt" with
        | some emoji => if emoji ≠ "" then some emoji else none
        | none => none)
  " ".intercalate post_content

/-- Model of `Xtractor.get_element_text` (`src/xtractor/scraper/extractor.py` lines
183–199), the flattener used for profile text: iterate the element's direct
child elements (`find_elements(By.XPATH, "./*")`); for `span`/`a`/`div`
append the child's rendered text unconditionally, for `img` append its `alt`
attribute (a `None` attribute makes the final `"".join` raise `TypeError`);
join with no separator.  Selenium's `WebElement.text` is modelled as the
subtree's string concatenation. -/
def get_element_text (element : Node) : Except PyError String := do
  let pieces ← element.childrenOf.foldlM
    (fun (acc : List String) child => do
      match child with
      | .text _ => pure acc
      | .elem t _ _ =>
        if t ∈ ["span", "a", "div"] then
          pure (acc ++ [child.getText])
        else if t = "img" then
          match child.getAttr "alt" with
          | some a => pure (acc ++ [a])
          | none => throw .typeError
        else
          pure acc)
    []
  pure (String.join pieces)

/-! ## `scraper/impressions.py`: `ImpressionFinder` -/

/-- Model of `IMPRESSION_HTML_TO_NAME` (`src/xtractor/constants/maps.py`), in the
dict's insertion order. -/
def IMPRESSION_HTML_TO_NAME : List (String × String) :=
  [("view", "views"), ("like", "likes"), ("retweet", "reposts"),
   ("bookmark", "bookmarks"), ("reply", "replies")]

/-- Model of `ImpressionFinder._get_metric` (`src/xtractor/scraper/impressions.py`
lines 37–52): the first whitespace token of the metric element's text,
stripped, or `"0"` when the element is absent, falsy, or has blank text. -/
def ImpressionFinder.getMetric (soup : Soup) (metric : String) :
    Except PyError String :=
  match soup.selectOne (METRICS_CSS_SELECTOR (pyToLowerStr metric)) with
  | some element =>
    if element.pyTruthy && pyStrip element.getText ≠ "" then do
      let t ← pyIndex (pySplitWs element.getText) 0
      pure (pyStrip t)
    else pure "0"
  | none => pure "0"

/-- Model of `ImpressionFinder.get_metric_value` (`impressions.py` lines 54–65). -/
def ImpressionFinder.getMetricValue (soup : Soup) (metric_html : String) :
    Except PyError ℤ := do
  let metric_value ← ImpressionFinder.getMetric soup metric_html
  convert_string_to_int metric_value

/-- Model of `ImpressionFinder.get_views` (`impressions.py` lines 67–75): the numeric
value of the views-specific marker `a[href$="/analytics"]`, from the whole
element text, or `0` when the element is absent or falsy. -/
def ImpressionFinder.getViews (soup : Soup) : Except PyError ℤ :=
  match soup.selectOne VIEWS_CSS_SELECTOR with
  | some views_element =>
    if views_element.pyTruthy then convert_string_to_int views_element.getText
    else .ok 0
  | none => .ok 0

/-- Python dict assignment `d[k] = v` on a string-keyed dict modelled as an
insertion-ordered association list. -/
def dictSet (d : List (String × ℤ)) (k : String) (v : ℤ) : List (String × ℤ) :=
  if d.any (fun p => p.1 = k) then d.map (fun p => if p.1 = k then (k, v) else p)
  else d ++ [(k, v)]

/-- Python `d.get(k, default)`. -/
def dictGetD (d : List (String × ℤ)) (k : String) (dflt : ℤ) : ℤ :=
  match d.find? (fun p => p.1 = k) with
  | some p => p.2
  | none => dflt

/-- Model of `ImpressionFinder.get_impressions` (`impressions.py` lines 77–95): one
metric per entry of `IMPRESSION_HTML_TO_NAME`, then the views fallback when
the computed `"views"` value is `0`. -/
def ImpressionFinder.getImpressions (soup : Soup) :
    Except PyError (List (String × ℤ)) := do
  let metrics ← IMPRESSION_HTML_TO_NAME.foldlM
    (fun (acc : List (String × ℤ)) p => do
      let metric_value ← ImpressionFinder.getMetricValue soup p.1
      pure (if p.2 ≠ "" then dictSet acc p.2 metric_value else acc))
    []
  if dictGetD metrics "views" 0 = 0 then do
    let v ← ImpressionFinder.getViews soup
    pure (dictSet metrics "views" v)
  else pure metrics

/-! ## Python `datetime` model -/

/-- A Python `datetime`, with `utc` recording whether `tzinfo` is
`timezone.utc` (`false` = naive). -/
structure PyDatetime where
  year : ℕ
  month : ℕ
  day : ℕ
  hour : ℕ
  minute : ℕ
  second : ℕ
  microsecond : ℕ
  utc : Bool
deriving DecidableEq, Repr

/-- Gregorian leap-year rule, as Python's `calendar`/`datetime` use. -/
def isLeapYear (y : ℕ) : Bool :=
  y % 4 = 0 && (y % 100 ≠ 0 || y % 400 = 0)

/-- Days in a month of a given year. -/
def daysInMonth (y m : ℕ) : ℕ :=
  if m = 2 then (if isLeapYear y then 29 else 28)
  else if m ∈ [4, 6, 9, 11] then 30
  else 31

/-- Parse the `YYYY-MM-DD` date part of an ISO-8601 string, with Python's
range validation. -/
def parseIsoDate (cs : List Char) : Option (ℕ × ℕ × ℕ) :=
  match cs with
  | [y1, y2, y3, y4, '-', m1, m2, '-', d1, d2] =>
    if [y1, y2, y3, y4, m1, m2, d1, d2].all Char.isDigit then
      let y := natOfDigits [y1, y2, y3, y4]
      let m := natOfDigits [m1, m2]
      let d := natOfDigits [d1, d2]
      if 1 ≤ y && 1 ≤ m && m ≤ 12 && 1 ≤ d && d ≤ daysInMonth y m then
        some (y, m, d)
      else none
    else none
  | _ => none

/-- Validate and assemble the hour/minute/second digit groups of an
ISO-8601 time part. -/
def mkIsoTime (hd md sd : List Char) (us : ℕ) : Option (ℕ × ℕ × ℕ × ℕ) :=
  if (hd ++ md ++ sd).all Char.isDigit then
    let h := natOfDigits hd
    let mi := natOfDigits md
    let se := natOfDigits sd
    if h ≤ 23 && mi ≤ 59 && se ≤ 59 then some (h, mi, se, us) else none
  else none

/-- Parse the `HH:MM[:SS[.fff[fff]]]` time part of an ISO-8601 string,
returning hour, minute, second and microsecond. -/
def parseIsoTime (cs : List Char) : Option (ℕ × ℕ × ℕ × ℕ) :=
  match cs with
  | [h1, h2, ':', m1, m2] =>
    mkIsoTime [h1, h2] [m1, m2] ['0', '0'] 0
  | [h1, h2, ':', m1, m2, ':', s1, s2] =>
    mkIsoTime [h1, h2] [m1, m2] [s1, s2] 0
  | [h1, h2, ':', m1, m2, ':', s1, s2, '.', f1, f2, f3] =>
    if [f1, f2, f3].all Char.isDigit then
      mkIsoTime [h1, h2] [m1, m2] [s1, s2] (natOfDigits [f1, f2, f3] * 1000)
    else none
  | [h1, h2, ':', m1, m2, ':', s1, s2, '.', f1, f2, f3, f4, f5, f6] =>
    if [f1, f2, f3, f4, f5, f6].all Char.isDigit then
      mkIsoTime [h1, h2] [m1, m2] [s1, s2] (natOfDigits [f1, f2, f3, f4, f5, f6])
    else none
  | _ => none

/-- Model of Python 3.10 `datetime.fromisoformat`: `YYYY-MM-DD`, optionally
followed by one separator character and a time part.  Trailing UTC-offset
suffixes are not modelled (the source always strips the trailing zone
character before parsing).  `none` models the `ValueError` raise. -/
def pyFromIso (s : String) : Option PyDatetime :=
  let cs := s.toList
  match parseIsoDate (cs.take 10) with
  | none => none
  | some (y, m, d) =>
    match cs.drop 10 with
    | [] => some ⟨y, m, d, 0, 0, 0, 0, false⟩
    | _sep :: tcs =>
      (parseIsoTime tcs).map (fun t => ⟨y, m, d, t.1, t.2.1, t.2.2.1, t.2.2.2, false⟩)

/-! ## `scraper/post.py`: `XPost`

Each accessor takes the post's document and (where relevant) the optional
`_url` constructor argument.  BeautifulSoup's
`BeautifulSoup(tag.decode_contents(), "html.parser")` — serialize the inner
markup and re-parse — is modelled as the tag's child list viewed as a
document. -/

/-- Model of `PostData` (`src/xtractor/models.py`), with `post_media` (a Python
`set[str]`) as a first-occurrence-deduplicated list and `impressions` as an
insertion-ordered dict. -/
structure PostData where
  text : Option String
  url : Option String
  date : Option PyDatetime
  author_username : Option String
  author_name : Option String
  post_media : List String
  is_repost : Bool
  video_in_post : Bool
  post_id : Option String
  impressions : List (String × ℤ)
deriving DecidableEq, Repr

/-- Model of `XPost.text` (`src/xtractor/scraper/post.py` lines 77–90). -/
def XPost.textOf (soup : Soup) : Option String :=
  match soup.selectOne TEXT_CSS_SELECTOR with
  | none => none
  | some text_element => some (get_soup_element_text text_element.childrenOf)

/-- Model of `XPost.url` (`post.py` lines 92–101): the constructor argument when
truthy, else `None`. -/
def XPost.urlOf (u : Option String) : Option String :=
  if pyTruthyStr u then u else none

/-- Model of `XPost.id` (`post.py` lines 151–160): the last `/`-separated segment of
the URL, or `None` when no truthy URL is known. -/
def XPost.idOf (u : Option String) : Option String :=
  match XPost.urlOf u with
  | some s => some ((pySplitChar s '/').getLastD "")
  | none => none

/-- Model of `XPost.date` (`post.py` lines 103–119): the `datetime` attribute of the
first `time` element, with its trailing zone character dropped, parsed as
ISO-8601 and pinned to UTC; `None` when the element or attribute is absent
or blank; uncaught `ValueError` when the attribute does not parse. -/
def XPost.dateOf (soup : Soup) : Except PyError (Option PyDatetime) :=
  match soup.selectOne DATE_CSS_SELECTOR with
  | none => .ok none
  | some date_element =>
    match date_element.getAttr "datetime" with
    | some d =>
      if d ≠ "" then
        match pyFromIso (d.dropRight 1) with
        | some dt => .ok (some { dt with utc := true })
        | none => .error .valueError
      else .ok none
    | none => .ok none

/-- Model of `XPost.author_username` (`post.py` lines 121–136): the fragment after
`@` (and before `·` when a middle dot is present) of the author marker's
text; `None` when the marker is absent or falsy; `[1]` raises `IndexError`
when the text contains no `@`. -/
def XPost.authorUsernameOf (soup : Soup) : Except PyError (Option String) :=
  match soup.selectOne USERNAME_CSS_SELECTOR with
  | none => .ok none
  | some username_element =>
    if ¬ username_element.pyTruthy then .ok none
    else
      let t := username_element.getText
      if pyContainsChar t '·' then do
        let x ← pyIndex (pySplitChar t '@') 1
        let y ← pyIndex (pySplitChar x '·') 0
        pure (some y)
      else do
        let x ← pyIndex (pySplitChar t '@') 1
        pure (some x)

/-- Model of `XPost.author_name` (`post.py` lines 138–149): the fragment before `@`
of the author marker's text (`split("@")[0]`, which always exists); `None`
when the marker is absent or falsy. -/
def XPost.authorNameOf (soup : Soup) : Option String :=
  match soup.selectOne USERNAME_CSS_SELECTOR with
  | none => none
  | some username_element =>
    if ¬ username_element.pyTruthy then none
    else some ((pySplitChar username_element.getText '@').headD "")

/-- Model of `XPost.get_post_media` (`post.py` lines 162–174): the set of truthy
`src` attributes of the media markers, as a first-occurrence-deduplicated
list. -/
def XPost.postMediaOf (soup : Soup) : List String :=
  ((soup.select MEDIA_CSS_SELECTOR).filterMap
    (fun element =>
      match element.getAttr "src" with
      | some s => if s ≠ "" then some s else none
      | none => none)).eraseDups

/-- Model of `XPost.is_repost` (`post.py` lines 176–183): truthiness of the repost
marker. -/
def XPost.isRepostOf (soup : Soup) : Bool :=
  match soup.selectOne REPOST_CSS_SELECTOR with
  | some el => el.pyTruthy
  | none => false

/-- Model of `XPost.video_in_post` (`post.py` lines 185–192): truthiness of the video
marker. -/
def XPost.videoInPostOf (soup : Soup) : Bool :=
  match soup.selectOne VIDEO_CSS_SELECTOR with
  | some el => el.pyTruthy
  | none => false

/-- Model of `XPost.get_attributes` (`post.py` lines 213–225), with the keyword
arguments evaluated in source order. -/
def XPost.getAttributes (soup : Soup) (u : Option String) :
    Except PyError PostData := do
  let pid := XPost.idOf u
  let tx := XPost.textOf soup
  let uu := XPost.urlOf u
  let d ← XPost.dateOf soup
  let aun ← XPost.authorUsernameOf soup
  let an := XPost.authorNameOf soup
  let rp := XPost.isRepostOf soup
  let vid := XPost.videoInPostOf soup
  let imp ← ImpressionFinder.getImpressions soup
  let media := XPost.postMediaOf soup
  pure ⟨tx, uu, d, aun, an, media, rp, vid, pid, imp⟩

/-! ## `scraper/extractor.py`: `Xtractor._scroll_and_scrape`

The environment supplies the batch of rendered post documents the wait
returns on the `k`-th loop iteration (`env k`); scrolling, waiting and the
stale-element retry (which in the source only re-reads the same markup)
have no observable effect beyond that batch.  The loop itself has no exit
besides the `len(user_posts) < limit` guard, so the embedding is fuel-indexed:
`outOfFuel` means the loop was still running after `fuel` iterations. -/

/-- The mutable state of `_scroll_and_scrape`
(`src/xtractor/scraper/extractor.py` lines 242–243): the `post_ids` set and
the accumulated `user_posts`, in encounter order. -/
structure DriverState where
  postIds : List (Option String)
  userPosts : List PostData
deriving DecidableEq, Repr

/-- Python `set.add` on the `post_ids` set (membership is all that is ever
observed, so insertion order is immaterial). -/
def pySetInsert (s : List (Option String)) (x : Option String) :
    List (Option String) :=
  if x ∈ s then s else s ++ [x]

/-- One pass of the `for index, post_element in enumerate(post_elements)`
body (`extractor.py` lines 251–273): each rendered post is parsed as
`XPost(soup=post_soup)` — with no URL, so its `id` is the `id` of a URL-less
post — deduplicated against `post_ids`, and accumulated, breaking once
`limit` is reached. -/
def scrapeIter (limit : ℕ) : List Soup → DriverState → Except PyError DriverState
  | [], st => .ok st
  | post_soup :: rest, st =>
    let x_post_id := XPost.idOf none
    if x_post_id ∈ st.postIds then scrapeIter limit rest st
    else do
      let pd ← XPost.getAttributes post_soup none
      let st2 : DriverState :=
        ⟨pySetInsert st.postIds x_post_id, st.userPosts ++ [pd]⟩
      if limit ≤ st2.userPosts.length then pure st2
      else scrapeIter limit rest st2

/-- Outcome of a fuel-bounded run of the `while` loop. -/
inductive DriverResult where
  | outOfFuel
  | raised (e : PyError)
  | done (posts : List PostData)
deriving DecidableEq, Repr

/-- The `while len(user_posts) < limit` loop of `_scroll_and_scrape`
(`extractor.py` lines 245–275), bounded by `fuel` iterations. -/
def scrollLoop (env : ℕ → List Soup) (limit : ℕ) :
    ℕ → ℕ → DriverState → DriverResult
  | fuel, k, st =>
    if st.userPosts.length < limit then
      match fuel with
      | 0 => .outOfFuel
      | fuel' + 1 =>
        match scrapeIter limit (env k) st with
        | .error e => .raised e
        | .ok st2 => scrollLoop env limit fuel' (k + 1) st2
    else .done st.userPosts

/-- Model of `Xtractor._scroll_and_scrape` (`extractor.py` lines 233–275): run the
loop from the empty state. -/
def scrollAndScrape (env : ℕ → List Soup) (limit fuel : ℕ) : DriverResult :=
  scrollLoop env limit fuel 0 ⟨[], []⟩

/-! ## `scraper/user.py`: `XUser`

An `XUser`'s per-field lookups go through
`self.profile_element.find_element(by, value)`; the environment is the
outcome of that lookup for each XPath string.  XPath strings are opaque keys
here (the source formats them and hands them to Selenium). -/

/-- Outcome of a Selenium `find_element` call: the element, a
`NoSuchElementException`, or a `TimeoutException`. -/
inductive Lookup where
  | found (el : Node)
  | notFound
  | timedOut

/-- The profile region's lookup environment. -/
structure ProfileEnv where
  find : String → Lookup

/-- Render a Python value into an f-string / `str.format` placeholder:
`None` prints as `"None"`. -/
def pyFormatArg : Option String → String
  | none => "None"
  | some s => s

/-- Model of `X_BASE_URL` (`src/xtractor/constants/urls.py`). -/
def X_BASE_URL : String := "https://x.com"

/-- Model of `FOLLOWERS_XPATH.format(username=...)`
(`src/xtractor/constants/x_paths.py`). -/
def FOLLOWERS_XPATH_FMT (u : Option String) : String :=
  "//a[@href=\"/" ++ pyFormatArg u ++ "/verified_followers\"]"

/-- Model of `FOLLOWING_XPATH.format(username=...)`. -/
def FOLLOWING_XPATH_FMT (u : Option String) : String :=
  "//a[@href=\"/" ++ pyFormatArg u ++ "/following\"]"

/-- Model of `SUBSCRIPTIONS_XPATH.format(username=...)`. -/
def SUBSCRIPTIONS_XPATH_FMT (u : Option String) : String :=
  "//a[@href=\"/" ++ pyFormatArg u ++ "/creator-subscriptions/subscriptions\"]"

/-- Model of `BIO_XPATH` (`constants/x_paths.py`). -/
def BIO_XPATH : String := ".//div[@data-testid=\"UserDescription\"]"

/-- Model of `NAME_XPATH`. -/
def NAME_XPATH : String := ".//div[@data-testid=\"UserName\"]"

/-- Model of `JOIN_DATE_XPATH`. -/
def JOIN_DATE_XPATH : String := ".//span[@data-testid=\"UserJoinDate\"]"

/-- Model of `PROFESSION_XPATH`. -/
def PROFESSION_XPATH : String := ".//span[@data-testid=\"UserProfessionalCategory\"]"

/-- Model of `LOCATION_XPATH`. -/
def LOCATION_XPATH : String := ".//span[@data-testid=\"UserLocation\"]"

/-- Model of `XUser._get_profile_property` (`src/xtractor/scraper/user.py` lines
83–98): run the lookup, flatten the found element's text with the scraper's
`get_element_text`, and turn `NoSuchElementException`/`TimeoutException`
into `None`.  (A Selenium `WebElement` is always truthy, so the
`if element else None` guard never yields `None`; exceptions raised by
`get_element_text` itself are not caught.) -/
def XUser.getProfileProperty (env : ProfileEnv) (value : String) :
    Except PyError (Option String) :=
  match env.find value with
  | .found element => do
    let t ← get_element_text element
    pure (some t)
  | .notFound => .ok none
  | .timedOut => .ok none

/-- Model of `XUser._fetch_name_and_username` (`user.py` lines 185–194): split the
composite name field into display name and handle; the tuple unpacking
raises `ValueError` unless the text has exactly two lines. -/
def XUser.fetchNameUsername (env : ProfileEnv) :
    Except PyError (Option String × Option String) := do
  let name_username ← XUser.getProfileProperty env NAME_XPATH
  match name_username with
  | some t =>
    if t ≠ "" then
      match pySplitlines t with
      | [a, b] => pure (some a, some (pyReplace b "@" ""))
      | _ => .error .valueError
    else pure (none, none)
  | none => pure (none, none)

/-- Model of `XUser.name` (`user.py` lines 161–171); the lazy memoization is elided
(the environment is immutable here, so the first and every fetch agree). -/
def XUser.nameOf (env : ProfileEnv) : Except PyError (Option String) :=
  (XUser.fetchNameUsername env).map (·.1)

/-- Model of `XUser.username` (`user.py` lines 173–183). -/
def XUser.usernameOf (env : ProfileEnv) : Except PyError (Option String) :=
  (XUser.fetchNameUsername env).map (·.2)

/-- Model of `XUser.followers` (`user.py` lines 100–115). -/
def XUser.followersOf (env : ProfileEnv) : Except PyError (Option ℤ) := do
  let u ← XUser.usernameOf env
  let followers_text ← XUser.getProfileProperty env (FOLLOWERS_XPATH_FMT u)
  match followers_text with
  | some t =>
    if t ≠ "" then do
      let n ← convert_string_to_int (pyReplace t "Followers" "")
      pure (some n)
    else pure none
  | none => pure none

/-- Model of `XUser.following` (`user.py` lines 117–132). -/
def XUser.followingOf (env : ProfileEnv) : Except PyError (Option ℤ) := do
  let u ← XUser.usernameOf env
  let following_text ← XUser.getProfileProperty env (FOLLOWING_XPATH_FMT u)
  match following_text with
  | some t =>
    if t ≠ "" then do
      let n ← convert_string_to_int (pyReplace t "Following" "")
      pure (some n)
    else pure none
  | none => pure none

/-- Model of `XUser.subscriptions` (`user.py` lines 134–149). -/
def XUser.subscriptionsOf (env : ProfileEnv) : Except PyError (Option ℤ) := do
  let u ← XUser.usernameOf env
  let subscription_text ← XUser.getProfileProperty env (SUBSCRIPTIONS_XPATH_FMT u)
  match subscription_text with
  | some t =>
    if t ≠ "" then do
      let n ← convert_string_to_int (pyReplace t "Subscriptions" "")
      pure (some n)
    else pure none
  | none => pure none

/-- Model of `XUser.bio` (`user.py` lines 151–159). -/
def XUser.bioOf (env : ProfileEnv) : Except PyError (Option String) :=
  XUser.getProfileProperty env BIO_XPATH

/-- Model of `XUser.profession` (`user.py` lines 209–217). -/
def XUser.professionOf (env : ProfileEnv) : Except PyError (Option String) :=
  XUser.getProfileProperty env PROFESSION_XPATH

/-- Model of `XUser.location` (`user.py` lines 219–227). -/
def XUser.locationOf (env : ProfileEnv) : Except PyError (Option String) :=
  XUser.getProfileProperty env LOCATION_XPATH

/-- The month names Python `strptime`'s `%B` accepts (matched
case-insensitively). -/
def monthNames : List String :=
  ["january", "february", "march", "april", "may", "june", "july",
   "august", "september", "october", "november", "december"]

/-- Model of Python `datetime.strptime(s, "%B %Y")`: a full month name, one
space, and a 1–4 digit year; `ValueError` otherwise.  Unmatched fields
default to day 1 and midnight. -/
def pyStrptimeMonthYear (s : String) : Except PyError PyDatetime :=
  match pySplitChar s ' ' with
  | [m, y] =>
    match monthNames.findIdx? (fun n => n = pyToLowerStr m) with
    | some i =>
      if y ≠ "" && y.toList.all Char.isDigit && y.length ≤ 4 &&
          1 ≤ natOfDigits y.toList then
        .ok ⟨natOfDigits y.toList, i + 1, 1, 0, 0, 0, 0, false⟩
      else .error .valueError
    | none => .error .valueError
  | _ => .error .valueError

/-- Model of `XUser.join_date` (`user.py` lines 196–207): the property calls
`.replace("Joined ", "")` on the lookup result *before* checking for `None`,
so an absent or timed-out marker raises `AttributeError`
(`None.replace`); otherwise the stripped text is parsed as month + year. -/
def XUser.joinDateOf (env : ProfileEnv) : Except PyError PyDatetime := do
  let prop ← XUser.getProfileProperty env JOIN_DATE_XPATH
  match prop with
  | none => .error .attributeError
  | some t =>
    let date_string := pyReplace t "Joined " ""
    pyStrptimeMonthYear date_string

/-- Model of `XUser.__init__` (`user.py` lines 37–69): raise `ValueError` when
neither a truthy username nor a profile element is supplied — before any
navigation; otherwise navigate to the profile page exactly when a truthy
username but no element was given, and resolve the profile region (the
supplied element, or the feed lookup's result).  Returns the list of URLs
navigated to, paired with the outcome. -/
def XUser.init (feedLookup : Option Node) (x_username : Option String)
    (profile_element : Option Node) :
    List String × Except PyError (Option Node) :=
  if pyTruthyStr x_username = false ∧ profile_element = none then
    ([], .error .valueError)
  else
    let nav :=
      if pyTruthyStr x_username = true ∧ profile_element = none then
        [X_BASE_URL ++ "/" ++ pyFormatArg x_username]
      else []
    let resolved :=
      match profile_element with
      | some e => some e
      | none => feedLookup
    (nav, .ok resolved)

/-! ## Concrete documents used as test inputs -/

/-- A minimal rendered post with none of the marker elements. -/
def soupA : Soup := [Node.elem "div" [] [Node.text "hello"]]

/-- A second, distinct minimal rendered post. -/
def soupB : Soup := [Node.elem "div" [] [Node.text "world"]]

/-- The `PostData` record the parser derives from `soupA` (or from `soupB`:
with no URL and no markers the two posts are indistinguishable). -/
def pdA : PostData :=
  ⟨none, none, none, none, none, [], false, false, none,
   [("views", 0), ("likes", 0), ("reposts", 0), ("bookmarks", 0), ("replies", 0)]⟩

/-- The driver state after collecting the first URL-less post. -/
def dStateA : DriverState := ⟨[none], [pdA]⟩

/-- An exhausted feed: every scroll cycle re-renders the same single post
(no page growth, no new unique content). -/
def constEnvA : ℕ → List Soup := fun _ => [soupA]

/-- Markup with a zero-valued primary views marker and a non-zero secondary
(`/analytics`) views marker. -/
def c4Soup : Soup :=
  [Node.elem "div" [("data-testid", "view")] [Node.text "0"],
   Node.elem "a" [("href", "/xyz/analytics")] [Node.text "500"]]

/-- The synthetic post of the end-to-end property: a text marker with
"Hello" and an image emoji, a time marker, an author marker and a likes
metric. -/
def c5Soup : Soup :=
  [Node.elem "article" []
    [Node.elem "div" [("data-testid", "tweetText")]
      [Node.elem "span" [] [Node.text "Hello"],
       Node.elem "img" [("alt", "👍")] []],
     Node.elem "time" [("datetime", "2024-01-01T00:00:00.000Z")]
      [Node.text "Jan 1"],
     Node.elem "div" [("data-testid", "User-Name")]
      [Node.text "Jane Doe@janedoe"],
     Node.elem "div" [("data-testid", "like")] [Node.text "42 Likes"]]]

/-- Two sibling text fragments, as a document (the post-text flattening
context). -/
def spanPairSoup : Soup :=
  [Node.elem "span" [] [Node.text "x"], Node.elem "span" [] [Node.text "y"]]

/-- Two sibling text fragments inside one parent element (the profile-text
flattening context). -/
def spanPairElem : Node :=
  Node.elem "div" []
    [Node.elem "span" [] [Node.text "x"], Node.elem "span" [] [Node.text "y"]]

/-- A profile region in which every per-field lookup reports
`NoSuchElementException`. -/
def envEmpty : ProfileEnv := ⟨fun _ => .notFound⟩

/-- An author marker whose text contains no `@`. -/
def noAtSoup : Soup :=
  [Node.elem "div" [("data-testid", "User-Name")] [Node.text "NoAtSign"]]

/-! ## Helper lemmas -/

theorem pySplitPredAux_no_match (p : Char → Bool) :
    ∀ (cs acc : List Char), (∀ c ∈ cs, p c = false) →
      pySplitPredAux p cs acc = [String.mk (acc.reverse ++ cs)] := by
  intro cs
  induction cs with
  | nil => intro acc _; simp [pySplitPredAux]
  | cons c rest ih =>
    intro acc hmem
    have hc : p c = false := hmem c (List.mem_cons_self _ _)
    have hrest : ∀ x ∈ rest, p x = false :=
      fun x hx => hmem x (List.mem_cons_of_mem _ hx)
    simp only [pySplitPredAux, hc, if_neg Bool.false_ne_true, ih (c :: acc) hrest,
      List.reverse_cons, List.append_assoc, List.singleton_append]

/-- Splitting on a separator the string does not contain yields the whole
string as the single fragment. -/
theorem pySplitChar_no_sep (s : String) (sep : Char) (h : sep ∉ s.toList) :
    pySplitChar s sep = [s] := by
  unfold pySplitChar
  rw [pySplitPredAux_no_match (fun c => c = sep) s.toList []
    (fun c hc => by
      have hne : c ≠ sep := fun hh => h (hh ▸ hc)
      simp [hne])]
  rfl

/-- The `try` body of `convert_string_to_int` fails only with `ValueError`
or `OverflowError`. -/
theorem floatChain_error (t : String) (g : PyFloat → PyFloat) (e : PyError)
    (h : (do
        let f ← pyFloatE t
        pyIntOfFloat (g f)) = .error e) :
    e = .valueError ∨ e = .overflowError := by
  cases hp : pyFloatOfString t with
  | none =>
    simp only [pyFloatE, hp, Bind.bind, Except.bind] at h
    exact .inl (Except.error.inj h).symm
  | some f =>
    simp only [pyFloatE, hp, Bind.bind, Except.bind] at h
    cases hg : g f <;> rw [hg] at h <;> simp only [pyIntOfFloat] at h
    · exact absurd h (by simp)
    · exact .inr (Except.error.inj h).symm
    · exact .inr (Except.error.inj h).symm
    · exact .inl (Except.error.inj h).symm

theorem convertBody_error (s : String) (e : PyError)
    (h : convertBody s = .error e) : e = .valueError ∨ e = .overflowError := by
  unfold convertBody at h
  split at h
  · exact floatChain_error _ (fun f => f.mulPos 1000) e h
  · split at h
    · exact floatChain_error _ (fun f => f.mulPos 1000000) e h
    · exact floatChain_error _ (fun f => f) e h

/-! ## Claim theorems -/

/-- C3 (counterexample): `convert_string_to_int` returns a negative value on
the input `"-5"`, and raises `OverflowError` on the input `"inf"` — so it is
not the case that it "returns without raising an exception, and its result
is never negative" for every input string. -/
theorem convert_string_to_int_claim_fails :
    convert_string_to_int "-5" = .ok (-5) ∧
      convert_string_to_int "inf" = .error .overflowError := by
  constructor
  · rfl
  · rfl

/-- C3 (amended): for every input string, `convert_string_to_int` either
returns an integer — so parse failures (`ValueError`) never escape, they
yield `0` — or raises `OverflowError` (which happens for inputs whose
numeric part denotes an infinite value); the returned integer may be
negative for negative numeric inputs. -/
theorem convert_string_to_int_ok_or_overflow (s : String) :
    (∃ n : ℤ, convert_string_to_int s = .ok n) ∨
      convert_string_to_int s = .error .overflowError := by
  have hconv : convert_string_to_int s =
      match convertBody (pyReplace s "," "") with
      | .error .valueError => .ok 0
      | r => r := rfl
  rw [hconv]
  cases h : convertBody (pyReplace s "," "") with
  | ok n => exact .inl ⟨n, rfl⟩
  | error e =>
    rcases convertBody_error _ _ h with rfl | rfl
    · exact .inl ⟨0, rfl⟩
    · exact .inr rfl

/-- C5: end-to-end post parsing of the synthetic markup: the flattened text
is "Hello 👍" (containing both "Hello" and the emoji's alt text), the date
is 2024-01-01T00:00:00+00:00 (UTC), the author display name is "Jane Doe",
the author handle is "janedoe", and the likes impression is 42. -/
theorem end_to_end_post_parsing :
    XPost.textOf c5Soup = some "Hello 👍" ∧
      "Hello".toList <:+: "Hello 👍".toList ∧
      "👍".toList <:+: "Hello 👍".toList ∧
      XPost.dateOf c5Soup = .ok (some ⟨2024, 1, 1, 0, 0, 0, 0, true⟩) ∧
      XPost.authorNameOf c5Soup = some "Jane Doe" ∧
      XPost.authorUsernameOf c5Soup = .ok (some "janedoe") ∧
      (ImpressionFinder.getImpressions c5Soup).map
        (fun m => dictGetD m "likes" 0) = .ok 42 := by
  refine ⟨by decide, by decide, by decide, by decide, by decide, by decide, by decide⟩

/-- C1: evaluation of the scroll-and-collect driver at the claim's scenario.
The driver constructs every `XPost` without a URL, so every record's
identifier is `None` rather than URL-derived; feeding it a first batch with
one post and a second batch repeating that post plus one new post yields
*zero* net-new records from the second batch (not one): after both batches
exactly one record is accumulated and its `post_id` is `None`. -/
theorem driver_dedup_collapses_on_missing_url :
    scrapeIter 10 [soupA] ⟨[], []⟩ = .ok dStateA ∧
      scrapeIter 10 [soupA, soupB] dStateA = .ok dStateA ∧
      dStateA.userPosts.length = 1 ∧
      dStateA.userPosts.map PostData.post_id = [none] ∧
      XPost.idOf none = none := by
  refine ⟨by decide, by decide, by decide, by decide, by decide⟩

/-- C9: per-field degradation of the profile parser on a region where every
lookup reports "not found": every accessor yields `None` — except
`join_date`, which raises `AttributeError` because the source calls
`.replace("Joined ", "")` on the `None` lookup result, contradicting its own
documented `None` fallback. -/
theorem profile_fields_degrade_except_join_date :
    XUser.joinDateOf envEmpty = .error .attributeError ∧
      XUser.followersOf envEmpty = .ok none ∧
      XUser.followingOf envEmpty = .ok none ∧
      XUser.subscriptionsOf envEmpty = .ok none ∧
      XUser.bioOf envEmpty = .ok none ∧
      XUser.nameOf envEmpty = .ok none ∧
      XUser.usernameOf envEmpty = .ok none ∧
      XUser.professionOf envEmpty = .ok none ∧
      XUser.locationOf envEmpty = .ok none := by
  refine ⟨by decide, by decide, by decide, by decide, by decide, by decide,
    by decide, by decide, by decide⟩

/-- C10: whenever the author marker is present (and truthy) but its text
contains no `@`, `author_username` raises an uncaught `IndexError` (indexing
`[1]` past the single split fragment), while `author_name` still returns the
full marker text. -/
theorem author_username_no_at (soup : Soup) (el : Node)
    (hsel : Soup.selectOne soup USERNAME_CSS_SELECTOR = some el)
    (htr : el.pyTruthy = true)
    (hat : pyContainsChar el.getText '@' = false) :
    XPost.authorUsernameOf soup = .error .indexError ∧
      XPost.authorNameOf soup = some el.getText := by
  have hmem : '@' ∉ el.getText.toList := by
    simpa [pyContainsChar] using hat
  have hsplit : pySplitChar el.getText '@' = [el.getText] :=
    pySplitChar_no_sep _ _ hmem
  constructor
  · unfold XPost.authorUsernameOf
    rw [hsel]
    simp [htr, hsplit, pyIndex, Bind.bind, Except.bind]
  · unfold XPost.authorNameOf
    rw [hsel]
    simp [htr, hsplit]

/-- C10 (witness): the theorem applied to a concrete author marker whose
text is "NoAtSign". -/
theorem author_username_no_at_witness :
    XPost.authorUsernameOf noAtSoup = .error .indexError ∧
      XPost.authorNameOf noAtSoup = some "NoAtSign" := by
  have h := author_username_no_at noAtSoup
    (Node.elem "div" [("data-testid", "User-Name")] [Node.text "NoAtSign"])
    (by decide) (by decide) (by decide)
  exact ⟨h.1, h.2⟩

/-- C8: constructing the profile parser with neither a (truthy) handle nor a
profile region raises `ValueError` immediately — the navigation log is empty
— and supplying at least one of the two never raises that error. -/
theorem xuser_init_guard (feed : Option Node) (xu : Option String)
    (pe : Option Node) :
    (pyTruthyStr xu = false ∧ pe = none →
      XUser.init feed xu pe = ([], .error .valueError)) ∧
    (pyTruthyStr xu = true ∨ pe ≠ none →
      (XUser.init feed xu pe).2 ≠ .error .valueError) := by
  constructor
  · rintro ⟨h1, h2⟩
    unfold XUser.init
    rw [if_pos ⟨h1, h2⟩]
  · intro h
    unfold XUser.init
    rw [if_neg]
    · simp
    · rintro ⟨h1, h2⟩
      rcases h with h | h
      · exact Bool.false_ne_true (h1.symm.trans h)
      · exact h h2

/-- C8 (witness): the theorem applied with no handle and no region (raises,
with no navigation), and with a handle supplied (does not raise). -/
theorem xuser_init_guard_witness :
    XUser.init none none none = ([], .error .valueError) ∧
      (XUser.init none (some "jane") none).2 ≠ .error .valueError :=
  ⟨(xuser_init_guard none none none).1 ⟨rfl, rfl⟩,
    (xuser_init_guard none (some "jane") none).2 (Or.inl (by decide))⟩

/-- C7: idempotence of flattening on an already-flat text node: for any
text-bearing element kind (`span`, `a`, `div`) whose content is one plain
(whitespace-trimmed, as the flattener strips fragments) text node, the
flattener returns that text unchanged. -/
theorem flatten_flat_node (tag s : String)
    (htag : tag ∈ (["span", "a", "div"] : List String))
    (hs : pyStrip s = s) :
    get_soup_element_text [Node.elem tag [] [Node.text s]] = s := by
  obtain rfl | rfl | rfl : tag = "span" ∨ tag = "a" ∨ tag = "div" := by
    simpa using htag
  all_goals {
    by_cases he : s = ""
    · subst he; decide
    · simp [get_soup_element_text, Soup.findAllTags, Soup.allElems,
        Node.allElemsOfList, Node.allElems, Node.tagOf, Node.getText,
        Node.strings, Node.stringsOfList, String.join, he, hs,
        String.intercalate]
      rfl
  }

/-- C7 (witness): the theorem applied to a flat `span` containing "Hello". -/
theorem flatten_flat_node_witness :
    get_soup_element_text [Node.elem "span" [] [Node.text "Hello"]] = "Hello" :=
  flatten_flat_node "span" "Hello" (by decide) (by decide)

/-- C6 (counterexample): on two sibling text fragments "x" and "y", the
post-text flattening context (`get_soup_element_text`) yields "x y" — it
*does* add a single-space separator — while the profile-text flattening
context (`Xtractor.get_element_text`) yields "xy" — it adds *no* separator.
This is the reverse of the claimed separator rules. -/
theorem flatten_separators_swapped :
    get_soup_element_text spanPairSoup = "x y" ∧
      get_element_text spanPairElem = .ok "xy" ∧
      get_soup_element_text spanPairSoup ≠ "x" ++ "y" ∧
      get_element_text spanPairElem ≠ .ok ("x" ++ " " ++ "y") := by
  refine ⟨by decide, by decide, by decide, by decide⟩

/-- C6 (amended): matched fragments are concatenated in encounter order with
*single-space* separators in the same-element (post-text) flattening
context, and with *no* added separators in the cross-element flattening
context used for profile text. -/
theorem flatten_separator_rules (a b : String) (ha : a ≠ "") (hb : b ≠ "")
    (hsa : pyStrip a = a) (hsb : pyStrip b = b) :
    get_soup_element_text
        [Node.elem "span" [] [Node.text a], Node.elem "span" [] [Node.text b]] =
        a ++ " " ++ b ∧
      get_element_text
        (Node.elem "div" []
          [Node.elem "span" [] [Node.text a],
           Node.elem "span" [] [Node.text b]]) = .ok (a ++ b) := by
  constructor
  · simp [get_soup_element_text, Soup.findAllTags, Soup.allElems,
      Node.allElemsOfList, Node.allElems, Node.tagOf, Node.getText,
      Node.strings, Node.stringsOfList, String.join, ha, hb, hsa, hsb,
      String.intercalate]
    rfl
  · simp [get_element_text, Node.childrenOf, Node.getText, Node.strings,
      Node.stringsOfList, String.join, List.foldlM, Bind.bind, Except.bind,
      Pure.pure, Except.pure]

/-- C6 (witness): the amended separator rules at the fragments "ab" and
"cd". -/
theorem flatten_separator_rules_witness :
    get_soup_element_text
        [Node.elem "span" [] [Node.text "ab"],
         Node.elem "span" [] [Node.text "cd"]] = "ab" ++ " " ++ "cd" ∧
      get_element_text
        (Node.elem "div" []
          [Node.elem "span" [] [Node.text "ab"],
           Node.elem "span" [] [Node.text "cd"]]) = .ok ("ab" ++ "cd") :=
  flatten_separator_rules "ab" "cd" (by decide) (by decide) (by decide)
    (by decide)

/-- C4: the views fallback of the impression extractor: whenever the primary
per-metric lookup for views computes `0` and `get_impressions` succeeds, the
reported `"views"` value is exactly the result of the views-specific
secondary lookup (`get_views`); so markup with a zero-valued primary views
marker and a non-zero secondary marker reports the secondary value. -/
theorem views_fallback (soup : Soup) (m : List (String × ℤ)) (v : ℤ)
    (hok : ImpressionFinder.getImpressions soup = .ok m)
    (hzero : ImpressionFinder.getMetricValue soup "view" = .ok 0)
    (hsec : ImpressionFinder.getViews soup = .ok v) :
    dictGetD m "views" 0 = v := by
  unfold ImpressionFinder.getImpressions at hok
  simp only [IMPRESSION_HTML_TO_NAME, List.foldlM_cons, List.foldlM_nil] at hok
  rw [hzero] at hok
  simp only [Bind.bind, Except.bind, Pure.pure, Except.pure] at hok
  cases h2 : ImpressionFinder.getMetricValue soup "like" with
  | error e => rw [h2] at hok; simp at hok
  | ok v2 =>
  rw [h2] at hok
  cases h3 : ImpressionFinder.getMetricValue soup "retweet" with
  | error e => rw [h3] at hok; simp at hok
  | ok v3 =>
  rw [h3] at hok
  cases h4 : ImpressionFinder.getMetricValue soup "bookmark" with
  | error e => rw [h4] at hok; simp at hok
  | ok v4 =>
  rw [h4] at hok
  cases h5 : ImpressionFinder.getMetricValue soup "reply" with
  | error e => rw [h5] at hok; simp at hok
  | ok v5 =>
  rw [h5] at hok
  simp only [dictSet, dictGetD] at hok
  norm_num at hok
  rw [hsec] at hok
  simp at hok
  subst hok
  simp [dictGetD, dictSet]

/-- C4 (witness): the theorem applied to `c4Soup`, whose primary views
metric reads "0" and whose `/analytics` marker reads "500". -/
theorem views_fallback_witness :
    dictGetD
      [("views", 500), ("likes", 0), ("reposts", 0), ("bookmarks", 0),
       ("replies", 0)] "views" 0 = 500 :=
  views_fallback c4Soup
    [("views", 500), ("likes", 0), ("reposts", 0), ("bookmarks", 0),
     ("replies", 0)] 500 (by decide) (by decide) (by decide)

theorem scrapeIter_ok_length_le (limit : ℕ) :
    ∀ (batch : List Soup) (st st2 : DriverState),
      st.userPosts.length < limit → scrapeIter limit batch st = .ok st2 →
        st2.userPosts.length ≤ limit := by
  intro batch
  induction batch with
  | nil =>
    intro st st2 hlt h
    simp only [scrapeIter] at h
    cases h
    exact le_of_lt hlt
  | cons soup rest ih =>
    intro st st2 hlt h
    simp only [scrapeIter] at h
    by_cases hmem : XPost.idOf none ∈ st.postIds
    · rw [if_pos hmem] at h
      exact ih st st2 hlt h
    · rw [if_neg hmem] at h
      cases hpd : XPost.getAttributes soup none with
      | error e =>
        rw [hpd] at h
        simp [Bind.bind, Except.bind] at h
      | ok pd =>
        rw [hpd] at h
        simp only [Bind.bind, Except.bind] at h
        by_cases hlim : limit ≤ (st.userPosts ++ [pd]).length
        · rw [if_pos hlim] at h
          cases h
          simpa using Nat.succ_le_of_lt hlt
        · rw [if_neg hlim] at h
          exact ih _ st2 (Nat.lt_of_not_le hlim) h

theorem scrollLoop_done_length (env : ℕ → List Soup) (limit : ℕ) :
    ∀ (fuel k : ℕ) (st : DriverState) (ps : List PostData),
      st.userPosts.length ≤ limit → scrollLoop env limit fuel k st = .done ps →
        ps.length = limit := by
  intro fuel
  induction fuel with
  | zero =>
    intro k st ps hle h
    simp only [scrollLoop] at h
    split at h
    · cases h
    · cases h
      exact le_antisymm hle (Nat.le_of_not_lt (by assumption))
  | succ f ih =>
    intro k st ps hle h
    simp only [scrollLoop] at h
    split at h
    · rename_i hlt
      cases hs : scrapeIter limit (env k) st with
      | error e => rw [hs] at h; cases h
      | ok st2 =>
        rw [hs] at h
        exact ih (k + 1) st2 ps (scrapeIter_ok_length_le limit _ st st2 hlt hs) h
    · cases h
      exact le_antisymm hle (Nat.le_of_not_lt (by assumption))

theorem scrollLoop_stuck_constEnvA :
    ∀ (fuel k : ℕ), scrollLoop constEnvA 2 fuel k dStateA = .outOfFuel := by
  intro fuel
  induction fuel with
  | zero => intro k; rfl
  | succ f ih =>
    intro k
    have hstep : scrapeIter 2 (constEnvA k) dStateA = .ok dStateA := by
      show scrapeIter 2 [soupA] dStateA = .ok dStateA
      decide
    simp only [scrollLoop]
    rw [if_pos (by decide)]
    rw [hstep]
    exact ih (k + 1)

/-- C2 (counterexample): on the exhausted feed `constEnvA` — after the first
cycle every further scroll cycle yields no new unique posts (the collection
pass returns the state unchanged) — a request for 2 records is still running
after 30 iterations instead of terminating with fewer records. -/
theorem scroll_loop_ignores_exhaustion :
    scrollAndScrape constEnvA 2 30 = .outOfFuel ∧
      scrapeIter 2 [soupA] dStateA = .ok dStateA ∧
      dStateA.userPosts.length = 1 := by
  refine ⟨by decide, by decide, by decide⟩

/-- C2 (amended): the accumulation loop terminates only by reaching the
requested count — every terminating run returns exactly `limit` records —
and a scroll cycle with no growth and no new unique posts does *not* end the
loop: on the exhausted feed `constEnvA`, a request for 2 records never
terminates, whatever the iteration bound. -/
theorem scroll_and_scrape_stops_only_at_limit :
    (∀ (env : ℕ → List Soup) (limit fuel : ℕ) (ps : List PostData),
        scrollAndScrape env limit fuel = .done ps → ps.length = limit) ∧
      (∀ fuel : ℕ, scrollAndScrape constEnvA 2 fuel = .outOfFuel) := by
  constructor
  · intro env limit fuel ps h
    exact scrollLoop_done_length env limit fuel 0 ⟨[], []⟩ ps (by simp) h
  · intro fuel
    unfold scrollAndScrape
    cases fuel with
    | zero => rfl
    | succ f =>
      have hstep : scrapeIter 2 (constEnvA 0) ⟨[], []⟩ = .ok dStateA := by
        show scrapeIter 2 [soupA] ⟨[], []⟩ = .ok dStateA
        decide
      simp only [scrollLoop]
      rw [if_pos (by decide)]
      rw [hstep]
      exact scrollLoop_stuck_constEnvA f 1

/-- C2 (witness): the theorem applied to a run that reaches a limit of 1
(returning exactly one record), and to the exhausted feed at bound 3. -/
theorem scroll_and_scrape_stops_only_at_limit_witness :
    ([pdA] : List PostData).length = 1 ∧
      scrollAndScrape constEnvA 2 3 = .outOfFuel :=
  ⟨scroll_and_scrape_stops_only_at_limit.1 constEnvA 1 5 [pdA] (by decide),
    scroll_and_scrape_stops_only_at_limit.2 3⟩

end Xtractor
